import Mathlib

/-!
Verification of the retained-mode geometry layer in `src/lib/kuhl-util.c`
(geometry object lifecycle, scene import helpers, bounding boxes, and the
skeletal animation evaluator).  Real numbers of the C code (`float`,
`double`) are modelled as rationals; machine pointers are modelled as
`Option`-valued references or arena indices; fallible or process-fatal
code paths are modelled with `Except`/`Option` results.

The linear-algebra primitives (`vecmat.h`) and the struct/constant
declarations of `kuhl-util.h` are not part of the source tree; they are
modelled from the specification where needed and marked as such.
-/

namespace KuhlUtil

/-- Modelled from the spec: the out-of-scope linear-algebra library
stores 4x4 matrices; we represent a matrix as a function of row and
column indices over the rationals. -/
def Mat4 : Type := Fin 4 → Fin 4 → ℚ

/-- Modelled from the spec: `mat4f_identity` of the missing vecmat
library produces the identity matrix. -/
def mat4fIdentity : Mat4 := fun i j => if i = j then 1 else 0

/-- Modelled from the spec: `mat4f_mult_mat4f_new`, ordinary 4x4 matrix
multiplication from the missing vecmat library. -/
def mat4fMultMat4f (a b : Mat4) : Mat4 :=
  fun i j => a i 0 * b 0 j + a i 1 * b 1 j + a i 2 * b 2 j + a i 3 * b 3 j

/-- Modelled from the spec: `mat4f_mult_vec4f_new`, matrix times column
vector from the missing vecmat library. -/
def mat4fMultVec4f (m : Mat4) (v : Fin 4 → ℚ) : Fin 4 → ℚ :=
  fun i => m i 0 * v 0 + m i 1 * v 1 + m i 2 * v 2 + m i 3 * v 3

/-- A 3-component vector of rationals (models `float[3]` / `aiVector3D`). -/
structure Vec3 where
  x : ℚ
  y : ℚ
  z : ℚ
deriving DecidableEq, Repr

/-- Modelled from the spec: transforming a 3-point by a 4x4 matrix
(homogeneous coordinate w = 1), as the bounding-box code uses
`mat4f_mult_vec4f_new` on the corner points. -/
def mat4TransformPoint (m : Mat4) (p : Vec3) : Vec3 :=
  let v : Fin 4 → ℚ := fun i =>
    if i = 0 then p.x else if i = 1 then p.y else if i = 2 then p.z else 1
  let w := mat4fMultVec4f m v
  ⟨w 0, w 1, w 2⟩

/-- An axis-aligned bounding box, stored in the C order
`(xmin, xmax, ymin, ymax, zmin, zmax)` of the `float bbox[6]` array. -/
structure BBox where
  xmin : ℚ
  xmax : ℚ
  ymin : ℚ
  ymax : ℚ
  zmin : ℚ
  zmax : ℚ
deriving DecidableEq, Repr

/-- `FLT_MAX`, the largest finite single-precision float
(2^128 - 2^104, written as a literal), used by the C code to seed the
min/max folds. -/
def fltMax : ℚ := 340282346638528859811704183484516925440

/-- The corner array built at the top of `kuhl_bbox_transform`
(kuhl-util.c:537-543).  The C code declares `float coords[8][3]` but the
initializer lists only SEVEN corners (the corner
`(xmax, ymin, zmin)` is missing); C aggregate initialization zero-fills
the eighth row, so the eighth processed point is the origin. -/
def kuhl_bbox_corners (b : BBox) : List Vec3 :=
  [ ⟨b.xmin, b.ymin, b.zmin⟩,
    ⟨b.xmin, b.ymin, b.zmax⟩,
    ⟨b.xmin, b.ymax, b.zmin⟩,
    ⟨b.xmin, b.ymax, b.zmax⟩,
    ⟨b.xmax, b.ymin, b.zmax⟩,
    ⟨b.xmax, b.ymax, b.zmin⟩,
    ⟨b.xmax, b.ymax, b.zmax⟩,
    ⟨0, 0, 0⟩ ]

/-- `kuhl_bbox_transform` (kuhl-util.c:529-571): a null matrix is a
no-op; otherwise each point of the corner array is transformed and the
new box is the min/max fold over the transformed points, seeded at
`FLT_MAX` / `-FLT_MAX` exactly as in the C code. -/
def kuhl_bbox_transform (b : BBox) (mat : Option Mat4) : BBox :=
  match mat with
  | none => b
  | some m =>
    let pts := (kuhl_bbox_corners b).map (mat4TransformPoint m)
    { xmin := pts.foldl (fun acc p => if p.x < acc then p.x else acc) fltMax
      xmax := pts.foldl (fun acc p => if p.x > acc then p.x else acc) (-fltMax)
      ymin := pts.foldl (fun acc p => if p.y < acc then p.y else acc) fltMax
      ymax := pts.foldl (fun acc p => if p.y > acc then p.y else acc) (-fltMax)
      zmin := pts.foldl (fun acc p => if p.z < acc then p.z else acc) fltMax
      zmax := pts.foldl (fun acc p => if p.z > acc then p.z else acc) (-fltMax) }

end KuhlUtil

namespace KuhlUtil

/-- One OpenGL primitive topology of the enumerated set accepted by the
geometry layer (`GL_POINTS` .. `GL_TRIANGLES`). -/
inductive PrimitiveType where
  | points
  | lineStrip
  | lineLoop
  | lines
  | triangleStrip
  | triangleFan
  | triangles
deriving DecidableEq, Repr

/-- A linked GLSL program as seen through the shader introspection
interface: its id and its tables of active attribute and uniform
variables with their locations. -/
structure GLProgram where
  id : Nat
  attribLocations : List (String × Int)
  uniformLocations : List (String × Int)
deriving DecidableEq, Repr

/-- Location lookup in an introspection table; `-1` is the OpenGL
sentinel for a missing/inactive variable. -/
def lookupLoc (table : List (String × Int)) (name : String) : Int :=
  match table.find? (fun e => e.1 == name) with
  | some e => e.2
  | none => -1

/-- The modelled state of the OpenGL device: resource tables (programs,
textures, vertex-array objects, buffer objects and their contents) plus
the global binding registers (current program, active texture unit,
per-unit 2D texture binding, bound vertex array, bound array buffer)
and a log of emitted draw/uniform commands. -/
structure GLState where
  programs : List GLProgram
  liveTextures : List Nat
  liveVAOs : List Nat
  nextBuffer : Nat
  liveBuffers : List Nat
  bufferData : List (Nat × List ℚ)
  elementBufferData : List (Nat × List Nat)
  mappedBuffers : List Nat
  currentProgram : Nat
  activeUnit : Nat
  texBinding : Nat → Nat
  boundVAO : Nat
  boundArrayBuffer : Nat

/-- `glIsProgram`. -/
def glIsProgram (st : GLState) (p : Nat) : Bool :=
  st.programs.any (fun pr => pr.id == p)

/-- `glIsTexture`. -/
def glIsTexture (st : GLState) (t : Nat) : Bool :=
  st.liveTextures.contains t

/-- `glIsVertexArray`. -/
def glIsVertexArray (st : GLState) (v : Nat) : Bool :=
  st.liveVAOs.contains v

/-- `glIsBuffer`. -/
def glIsBuffer (st : GLState) (b : Nat) : Bool :=
  st.liveBuffers.contains b

/-- `glGetAttribLocation`: `-1` when the program does not exist or the
attribute is not active in it. -/
def glGetAttribLocation (st : GLState) (p : Nat) (name : String) : Int :=
  match st.programs.find? (fun pr => pr.id == p) with
  | some pr => lookupLoc pr.attribLocations name
  | none => -1

/-- `glGetUniformLocation`: `-1` when the program does not exist or the
uniform is not active in it. -/
def glGetUniformLocation (st : GLState) (p : Nat) (name : String) : Int :=
  match st.programs.find? (fun pr => pr.id == p) with
  | some pr => lookupLoc pr.uniformLocations name
  | none => -1

/-- `glGenBuffers(1, ..)`: returns a fresh buffer name and marks it
live.  Fresh names are drawn from a monotone counter. -/
def glGenBuffer (st : GLState) : Nat × GLState :=
  (st.nextBuffer,
   { st with nextBuffer := st.nextBuffer + 1, liveBuffers := st.nextBuffer :: st.liveBuffers })

/-- `glDeleteBuffers(1, ..)`: the name stops being live and its data
store is released. -/
def glDeleteBuffer (st : GLState) (b : Nat) : GLState :=
  { st with liveBuffers := st.liveBuffers.filter (fun x => x != b),
            bufferData := st.bufferData.filter (fun e => e.1 != b),
            elementBufferData := st.elementBufferData.filter (fun e => e.1 != b),
            mappedBuffers := st.mappedBuffers.filter (fun x => x != b) }

/-- `glBufferData(GL_ARRAY_BUFFER, ..)` on buffer `b`: replaces the
buffer's data store. -/
def setBufferData (st : GLState) (b : Nat) (data : List ℚ) : GLState :=
  { st with bufferData := (b, data) :: st.bufferData.filter (fun e => e.1 != b) }

/-- `glBufferData(GL_ELEMENT_ARRAY_BUFFER, ..)` on buffer `b`. -/
def setElementBufferData (st : GLState) (b : Nat) (data : List Nat) : GLState :=
  { st with elementBufferData := (b, data) :: st.elementBufferData.filter (fun e => e.1 != b) }

/-- One attribute slot of a `kuhl_geometry` (kuhl-util.h is not in the
tree; modelled from the spec, §3: name + owned buffer object).  A `name`
of `none` models a NULL `char*`; a `bufferobject` of `0` models the
zero buffer name. -/
structure KuhlAttrib where
  name : Option String
  bufferobject : Nat
deriving DecidableEq, Repr

/-- One texture slot of a `kuhl_geometry`: name + non-owned texture id
(modelled from the spec, §3). -/
structure KuhlTexture where
  name : String
  textureId : Nat
deriving DecidableEq, Repr

/-- Modelled from the spec: the fixed attribute-slot capacity of a
geometry object declared in the missing kuhl-util.h (§3 gives 32). -/
def MAX_ATTRIBUTES : Nat := 32

/-- Modelled from the spec: the fixed texture-slot capacity of a
geometry object declared in the missing kuhl-util.h (§3 gives 8). -/
def MAX_TEXTURES : Nat := 8

/-- Modelled from the spec: the fixed bone capacity of a BoneSet
declared in the missing kuhl-util.h.  The spec fixes no number; the
claims only need the capacity to be at least 5, and 128 is used here. -/
def MAX_BONES : Nat := 128

/-- `aiVertexWeight`: one (vertex id, weight) influence entry of a bone. -/
structure AiVertexWeight where
  vertexId : Nat
  weight : ℚ
deriving DecidableEq, Repr

/-- `aiBone`: a named bone with its inverse bind-pose offset matrix and
its list of vertex influences. -/
structure AiBone where
  name : String
  offsetMatrix : Mat4
  weights : List AiVertexWeight

/-- `aiVectorKey`: a timestamped position or scaling keyframe. -/
structure AiVectorKey where
  time : ℚ
  value : Vec3
deriving DecidableEq, Repr

/-- A quaternion (x, y, z, w), as stored in `aiQuatKey`. -/
structure Quat where
  x : ℚ
  y : ℚ
  z : ℚ
  w : ℚ
deriving DecidableEq, Repr

/-- `aiQuatKey`: a timestamped rotation keyframe. -/
structure AiQuatKey where
  time : ℚ
  value : Quat
deriving DecidableEq, Repr

/-- `aiNodeAnim`: the keyframe channel of one named node. -/
structure AiNodeAnim where
  nodeName : String
  positionKeys : List AiVectorKey
  rotationKeys : List AiQuatKey
  scalingKeys : List AiVectorKey
deriving DecidableEq, Repr

/-- `aiAnimation`: duration and tick rate plus per-node channels. -/
structure AiAnimation where
  duration : ℚ
  ticksPerSecond : ℚ
  channels : List AiNodeAnim
deriving DecidableEq, Repr

/-- `aiNode`, stored in an arena: the node's name, its local transform,
its parent (an arena index, `none` at the root), its child arena
indices, and its mesh indices. -/
structure AiNode where
  name : String
  transformation : Mat4
  parent : Option Nat
  children : List Nat
  meshes : List Nat

/-- `aiScene`, as consumed by the animation evaluator: the node arena,
the root node's arena index, and the animation list. -/
structure AiScene where
  nodes : List AiNode
  rootNode : Nat
  animations : List AiAnimation

/-- `kuhl_bonemat` (modelled from the spec, §3 BoneSet, with the fields
the C code reads): bone count, source mesh index, bone descriptors and
one matrix per bone slot. -/
structure KuhlBonemat where
  count : Nat
  mesh : Nat
  boneList : List AiBone
  matrices : List Mat4

/-- `kuhl_geometry` (kuhl-util.h is not in the tree; fields modelled
from the spec, §3, and from every access the C code makes).  The
`attribs`/`textures` arrays are modelled as lists whose length is the
`attrib_count`/`texture_count` of the C struct.  The `next` link of the
C struct is representation-dependent: list-traversal operations take a
`List KuhlGeometry`, while `kuhl_geometry_delete`, whose behaviour
depends on the `next` pointer itself, uses `GeomCell` below. -/
structure KuhlGeometry where
  vao : Nat
  program : Nat
  primitive_type : PrimitiveType
  vertex_count : Nat
  attribs : List KuhlAttrib
  textures : List KuhlTexture
  indices : List Nat
  indices_len : Nat
  indices_bufferobject : Nat
  matrix : Mat4
  has_been_drawn : Bool
  bones : Option KuhlBonemat
  assimp_node : Option Nat
  assimp_scene : Option AiScene

/-- `kuhl_geometry_attrib_index` (kuhl-util.c:715-725): first index of
the named attribute, `none` for the C's `-1`. -/
def kuhl_geometry_attrib_index (geom : KuhlGeometry) (name : String) : Option Nat :=
  geom.attribs.findIdx? (fun a => a.name == some name)

/-- The `attribLoc` computed at the top of
`kuhl_geometry_sanity_check_attribute` (kuhl-util.c:421-423): `-1` for a
NULL name, the introspected location otherwise. -/
def sanityAttribLoc (st : GLState) (attributeName : Option String) (program : Nat) : Int :=
  match attributeName with
  | some n => glGetAttribLocation st program n
  | none => -1

/-- `kuhl_geometry_sanity_check_attribute` (kuhl-util.c:418-452): if the
attribute is active in the program, any partially set slot is fatal; if
it is inactive, a live buffer object for it is fatal. -/
def kuhl_geometry_sanity_check_attribute (st : GLState) (bufferobject : Nat)
    (attributeName : Option String) (program : Nat) : Except String Unit :=
  let attribLoc : Int := sanityAttribLoc st attributeName program
  if attribLoc != -1 then
    if attributeName.isSome || bufferobject != 0 then
      if attributeName.isNone || bufferobject == 0 then
        .error "Only part of the attribute was set"
      else .ok ()
    else .ok ()
  else
    if glIsBuffer st bufferobject then
      .error "We created a buffer object for an attribute that is not in the GLSL program"
    else .ok ()

/-- `kuhl_geometry_attrib` (kuhl-util.c:880-992).  Silent no-ops: empty
name, NULL data, zero components, invalid vertex-array object, or a
name that is not an active attribute of the geometry's program.
Otherwise the named slot is overwritten (releasing the old buffer) or a
new slot is appended — fatal at the fixed capacity — and a fresh buffer
is created, filled, and recorded.  The C also leaves the vertex-array
and array-buffer bindings at 0. -/
def kuhl_geometry_attrib (st : GLState) (geom : KuhlGeometry) (data : Option (List ℚ))
    (components : Nat) (name : String) (warnIfAttribMissing : Bool) :
    Except String (GLState × KuhlGeometry) :=
  if name = "" then .ok (st, geom)
  else if data.isNone then .ok (st, geom)
  else if components = 0 then .ok (st, geom)
  else if ¬ glIsVertexArray st geom.vao then .ok (st, geom)
  else if glGetAttribLocation st geom.program name = -1 then .ok (st, geom)
  else
    match kuhl_geometry_attrib_index geom name with
    | none =>
      if geom.attribs.length = MAX_ATTRIBUTES then
        .error "You tried to add more than MAX_ATTRIBUTES attributes"
      else
        let (buf, st1) := glGenBuffer st
        let st2 := setBufferData st1 buf (data.getD [])
        .ok ({ st2 with boundVAO := 0, boundArrayBuffer := 0 },
             { geom with attribs := geom.attribs ++ [⟨some name, buf⟩] })
    | some destIndex =>
      let old := geom.attribs.getD destIndex ⟨none, 0⟩
      let st1 := if glIsBuffer st old.bufferobject then glDeleteBuffer st old.bufferobject else st
      let (buf, st2) := glGenBuffer st1
      let st3 := setBufferData st2 buf (data.getD [])
      .ok ({ st3 with boundVAO := 0, boundArrayBuffer := 0 },
           { geom with attribs := geom.attribs.set destIndex ⟨some name, buf⟩ })

/-- The destination-slot scan of `kuhl_geometry_texture`
(kuhl-util.c:674-679): the C loop keeps the LAST matching index. -/
def kuhl_texture_dest_index (textures : List KuhlTexture) (name : String) : Option Nat :=
  (List.range textures.length).foldl
    (fun acc i =>
      if (textures.getD i ⟨"", 0⟩).name == name then some i else acc)
    none

/-- `kuhl_geometry_texture` (kuhl-util.c:630-700), the per-node body.
Silent no-ops: empty name, zero or dead texture, invalid vertex-array
object, missing sampler uniform.  Otherwise the named slot is
overwritten, or appended with a fatal error at the fixed capacity.  The
`KG_FULL_LIST` option applies this same body to every node of the
linked list and is not modelled separately. -/
def kuhl_geometry_texture (st : GLState) (geom : KuhlGeometry) (texture : Nat)
    (name : String) (warn : Bool) : Except String (GLState × KuhlGeometry) :=
  if name = "" then .ok (st, geom)
  else if texture = 0 then .ok (st, geom)
  else if ¬ glIsTexture st texture then .ok (st, geom)
  else if ¬ glIsVertexArray st geom.vao then .ok (st, geom)
  else if glGetUniformLocation st geom.program name = -1 then .ok (st, geom)
  else
    match kuhl_texture_dest_index geom.textures name with
    | some destIndex =>
      .ok (st, { geom with textures := geom.textures.set destIndex ⟨name, texture⟩ })
    | none =>
      if geom.textures.length = MAX_TEXTURES then
        .error "You tried to add more than MAX_TEXTURES textures"
      else
        .ok (st, { geom with textures := geom.textures ++ [⟨name, texture⟩] })

/-- `kuhl_geometry_indices` (kuhl-util.c:1086-1134).  The Lean list
carries both the C `indices` pointer and its `indexCount` (its length).
A zero count or NULL pointer is a warned no-op; a count that is not a
multiple of the primitive arity (3 for triangles, 2 for lines) is
fatal; an index that is `>= vertex_count` is reported per occurrence
but the indices are stored unmodified either way, and an index buffer
is created and filled. -/
def kuhl_geometry_indices (st : GLState) (geom : KuhlGeometry)
    (indices : Option (List Nat)) : Except String (GLState × KuhlGeometry) :=
  let lst := indices.getD []
  let indexCount := lst.length
  if indexCount = 0 ∨ indices.isNone then .ok (st, geom)
  else if geom.primitive_type = .triangles ∧ indexCount % 3 ≠ 0 then
    .error "indexCount was not a multiple of 3 even though this geometry has triangles in it"
  else if geom.primitive_type = .lines ∧ indexCount % 2 ≠ 0 then
    .error "indexCount was not a multiple of 2 even though this geometry has lines in it"
  else
    let (buf, st1) := glGenBuffer st
    let st2 := setElementBufferData st1 buf lst
    .ok ({ st2 with boundVAO := 0 },
         { geom with indices := lst, indices_len := indexCount, indices_bufferobject := buf })

/-- Whether a modelled operation terminated the process
(`msg(FATAL)/exit(EXIT_FAILURE)` in the C code). -/
def isFatal {α : Type} (r : Except String α) : Bool :=
  match r with
  | .error _ => true
  | .ok _ => false

/-- The sanity invariant of the claim set: every attribute slot of the
geometry has both its name and its buffer object set. -/
def attribsComplete (geom : KuhlGeometry) : Bool :=
  geom.attribs.all (fun a => a.name.isSome && a.bufferobject != 0)

/-- A small linked shader program used by the concrete witnesses. -/
def exProgram : GLProgram :=
  ⟨7, [("in_Position", 0), ("in_Color", 1)], [("tex", 0), ("NumBones", 1)]⟩

/-- A device state with one program, one texture, one vertex array, and
one live buffer, used by the concrete witnesses. -/
def exGLState : GLState where
  programs := [exProgram]
  liveTextures := [3]
  liveVAOs := [5]
  nextBuffer := 1
  liveBuffers := [9]
  bufferData := []
  elementBufferData := []
  mappedBuffers := []
  currentProgram := 0
  activeUnit := 0
  texBinding := fun _ => 0
  boundVAO := 0
  boundArrayBuffer := 0

/-- An empty triangle geometry bound to `exProgram`, used by the
concrete witnesses. -/
def exGeom : KuhlGeometry where
  vao := 5
  program := 7
  primitive_type := .triangles
  vertex_count := 3
  attribs := []
  textures := []
  indices := []
  indices_len := 0
  indices_bufferobject := 0
  matrix := mat4fIdentity
  has_been_drawn := false
  bones := none
  assimp_node := none
  assimp_scene := none

/-- `exGeom` with its attribute registry filled to capacity, used by
the capacity witnesses. -/
def exGeomFullAttribs : KuhlGeometry :=
  { exGeom with attribs := List.replicate MAX_ATTRIBUTES ⟨some "in_Position", 9⟩ }

/-- `exGeom` with its texture registry filled to capacity, used by the
capacity witnesses. -/
def exGeomFullTextures : KuhlGeometry :=
  { exGeom with textures := List.replicate MAX_TEXTURES ⟨"other", 3⟩ }

end KuhlUtil

namespace KuhlUtil

/-- C2: counterexample to the spec's bounding-box round trip.  The unit
box `[1,2] x [1,2] x [1,2]` transformed by the identity matrix comes
back as `[0,2] x [0,2] x [0,2]`, not as itself: the C corner initializer
lists only seven of the eight corners and the zero-filled eighth row
drags the box out to the origin. -/
theorem kuhl_bbox_transform_identity_not_roundtrip :
    kuhl_bbox_transform ⟨1, 2, 1, 2, 1, 2⟩ (some mat4fIdentity) = ⟨0, 2, 0, 2, 0, 2⟩ ∧
    (⟨0, 2, 0, 2, 0, 2⟩ : BBox) ≠ ⟨1, 2, 1, 2, 1, 2⟩ := by
  constructor
  · with_unfolding_all decide
  · with_unfolding_all decide

end KuhlUtil

namespace KuhlUtil

/-- C6: `kuhl_geometry_attrib` called with a name that is not an active
attribute of the geometry's shader program is a no-op that creates no
buffer and changes neither the device state nor the geometry; every
successful call preserves the invariant that each attribute slot has
both its name and its buffer present; and
`kuhl_geometry_sanity_check_attribute` is fatal on any mismatch (an
active attribute with a missing name or zero buffer, or an inactive
attribute with a live buffer object). -/
theorem kuhl_geometry_attrib_inactive_noop_and_sanity
    (st : GLState) (geom : KuhlGeometry) (data : Option (List ℚ)) (components : Nat)
    (name : String) (warn : Bool) :
    (glGetAttribLocation st geom.program name = -1 →
      kuhl_geometry_attrib st geom data components name warn = .ok (st, geom)) ∧
    (0 < st.nextBuffer → attribsComplete geom = true →
      ∀ st' geom', kuhl_geometry_attrib st geom data components name warn = .ok (st', geom') →
        attribsComplete geom' = true) ∧
    (∀ (b : Nat) (oname : Option String) (prog : Nat),
      ((sanityAttribLoc st oname prog ≠ -1 ∧ (oname.isNone = true ∨ b = 0)) ∨
        (sanityAttribLoc st oname prog = -1 ∧ glIsBuffer st b = true)) →
      isFatal (kuhl_geometry_sanity_check_attribute st b oname prog) = true) := by
  refine ⟨?_, ?_, ?_⟩
  · intro h
    simp [kuhl_geometry_attrib, h]
  · intro hnb hcomp st' geom' h
    simp only [kuhl_geometry_attrib] at h
    split at h
    · simp_all
    split at h
    · simp_all
    split at h
    · simp_all
    split at h
    · simp_all
    split at h
    · simp_all
    split at h
    case _ heq =>
      split at h
      · simp_all
      case _ hlen =>
        simp only [glGenBuffer, setBufferData, Except.ok.injEq, Prod.mk.injEq] at h
        obtain ⟨-, hg⟩ := h
        subst hg
        simp only [attribsComplete, List.all_append, List.all_cons, List.all_nil,
          Bool.and_true, Bool.and_eq_true] at hcomp ⊢
        refine ⟨hcomp, ?_⟩
        simp [Option.isSome, bne]
        omega
    case _ i heq =>
      split at h
      case _ hdel =>
        simp only [glGenBuffer, glDeleteBuffer, setBufferData, Except.ok.injEq,
          Prod.mk.injEq] at h
        obtain ⟨-, hg⟩ := h
        subst hg
        simp only [attribsComplete, List.all_eq_true] at hcomp ⊢
        intro a ha
        rcases List.mem_or_eq_of_mem_set ha with h1 | h2
        · exact hcomp a h1
        · subst h2
          simp [Option.isSome, bne]
          omega
      case _ hdel =>
        simp only [glGenBuffer, setBufferData, Except.ok.injEq, Prod.mk.injEq] at h
        obtain ⟨-, hg⟩ := h
        subst hg
        simp only [attribsComplete, List.all_eq_true] at hcomp ⊢
        intro a ha
        rcases List.mem_or_eq_of_mem_set ha with h1 | h2
        · exact hcomp a h1
        · subst h2
          simp [Option.isSome, bne]
          omega
  · intro b oname prog h
    rcases h with ⟨hloc, hpart⟩ | ⟨hloc, hbuf⟩
    · cases oname with
      | none => exact absurd (by simp [sanityAttribLoc]) hloc
      | some n =>
        rcases hpart with hn | hb
        · simp at hn
        · subst hb
          simp only [sanityAttribLoc] at hloc
          simp [kuhl_geometry_sanity_check_attribute, sanityAttribLoc, isFatal, bne, hloc]
    · simp only [kuhl_geometry_sanity_check_attribute, isFatal]
      rw [if_neg (by simpa [bne] using hloc)]
      simp [hbuf]

/-- Witness for C6 at concrete inputs: the attribute name
`in_Missing` is inactive in `exProgram`, so the call is a no-op and the
(trivially complete) registry stays complete; and the sanity checker is
fatal both for an active name with buffer 0 and for a missing name with
a live buffer. -/
theorem kuhl_geometry_attrib_inactive_noop_and_sanity_witness :
    kuhl_geometry_attrib exGLState exGeom (some [0, 0, 0]) 3 "in_Missing" false =
      .ok (exGLState, exGeom) ∧
    attribsComplete exGeom = true ∧
    isFatal (kuhl_geometry_sanity_check_attribute exGLState 0 (some "in_Position") 7) = true ∧
    isFatal (kuhl_geometry_sanity_check_attribute exGLState 9 none 7) = true := by
  have h := kuhl_geometry_attrib_inactive_noop_and_sanity exGLState exGeom
    (some [0, 0, 0]) 3 "in_Missing" false
  have h1 : glGetAttribLocation exGLState exGeom.program "in_Missing" = -1 := by
    with_unfolding_all decide
  have hnoop := h.1 h1
  refine ⟨hnoop, ?_, ?_, ?_⟩
  · exact h.2.1 (by with_unfolding_all decide) (by with_unfolding_all decide)
      exGLState exGeom hnoop
  · exact h.2.2 0 (some "in_Position") 7 (Or.inl ⟨by with_unfolding_all decide, Or.inr rfl⟩)
  · exact h.2.2 9 none 7 (Or.inr ⟨by with_unfolding_all decide, by with_unfolding_all decide⟩)

end KuhlUtil

namespace KuhlUtil

/-- A geometry with a single attribute slot, used by the overwrite
witnesses. -/
def exGeomOneAttrib : KuhlGeometry :=
  { exGeom with attribs := [⟨some "in_Position", 9⟩] }

/-- A geometry with a single texture slot, used by the overwrite
witnesses. -/
def exGeomOneTexture : KuhlGeometry :=
  { exGeom with textures := [⟨"tex", 3⟩] }

/-- The device state after overwriting the attribute of
`exGeomOneAttrib` (old buffer 9 deleted, fresh buffer 1 created and
filled). -/
def exStAfterOverwrite : GLState :=
  { exGLState with nextBuffer := 2, liveBuffers := [1],
                   bufferData := [(1, [1, 2, 3, 1, 2, 3, 1, 2, 3])] }

/-- `exGeomOneAttrib` after the overwrite: same single slot, fresh
buffer. -/
def exGeomAfterOverwrite : KuhlGeometry :=
  { exGeom with attribs := [⟨some "in_Position", 1⟩] }

/-- C7: the attribute and texture registries never exceed their fixed
capacities: a successful `kuhl_geometry_attrib`/`kuhl_geometry_texture`
keeps the count within the capacity; appending a NEW name when the
registry is full is fatal (process termination), never a silent
truncation; and overwriting an existing name never changes the count. -/
theorem kuhl_geometry_counts_capped
    (st : GLState) (geom : KuhlGeometry) (data : Option (List ℚ)) (components : Nat)
    (name : String) (warn : Bool) (texture : Nat) (tname : String) (twarn : Bool) :
    (∀ st' geom', kuhl_geometry_attrib st geom data components name warn = .ok (st', geom') →
      geom.attribs.length ≤ MAX_ATTRIBUTES → geom'.attribs.length ≤ MAX_ATTRIBUTES) ∧
    (∀ st' geom', kuhl_geometry_texture st geom texture tname twarn = .ok (st', geom') →
      geom.textures.length ≤ MAX_TEXTURES → geom'.textures.length ≤ MAX_TEXTURES) ∧
    (geom.attribs.length = MAX_ATTRIBUTES → kuhl_geometry_attrib_index geom name = none →
      name ≠ "" → data.isNone = false → components ≠ 0 → glIsVertexArray st geom.vao = true →
      glGetAttribLocation st geom.program name ≠ -1 →
      isFatal (kuhl_geometry_attrib st geom data components name warn) = true) ∧
    (geom.textures.length = MAX_TEXTURES → kuhl_texture_dest_index geom.textures tname = none →
      tname ≠ "" → texture ≠ 0 → glIsTexture st texture = true →
      glIsVertexArray st geom.vao = true → glGetUniformLocation st geom.program tname ≠ -1 →
      isFatal (kuhl_geometry_texture st geom texture tname twarn) = true) ∧
    (∀ i st' geom', kuhl_geometry_attrib_index geom name = some i →
      kuhl_geometry_attrib st geom data components name warn = .ok (st', geom') →
      geom'.attribs.length = geom.attribs.length) ∧
    (∀ i st' geom', kuhl_texture_dest_index geom.textures tname = some i →
      kuhl_geometry_texture st geom texture tname twarn = .ok (st', geom') →
      geom'.textures.length = geom.textures.length) := by
  refine ⟨?_, ?_, ?_, ?_, ?_, ?_⟩
  · intro st' geom' h hle
    simp only [kuhl_geometry_attrib] at h
    split at h
    · simp_all
    split at h
    · simp_all
    split at h
    · simp_all
    split at h
    · simp_all
    split at h
    · simp_all
    split at h
    case _ heq =>
      split at h
      · simp_all
      case _ hlen =>
        simp only [glGenBuffer, setBufferData, Except.ok.injEq, Prod.mk.injEq] at h
        obtain ⟨-, hg⟩ := h
        subst hg
        simp only [List.length_append, List.length_cons, List.length_nil]
        omega
    case _ i heq =>
      split at h <;>
      · simp only [glGenBuffer, glDeleteBuffer, setBufferData, Except.ok.injEq,
          Prod.mk.injEq] at h
        obtain ⟨-, hg⟩ := h
        subst hg
        simpa [List.length_set] using hle
  · intro st' geom' h hle
    simp only [kuhl_geometry_texture] at h
    split at h
    · simp_all
    split at h
    · simp_all
    split at h
    · simp_all
    split at h
    · simp_all
    split at h
    · simp_all
    split at h
    case _ i heq =>
      simp only [Except.ok.injEq, Prod.mk.injEq] at h
      obtain ⟨-, hg⟩ := h
      subst hg
      simpa [List.length_set] using hle
    case _ heq =>
      split at h
      · simp_all
      case _ hlen =>
        simp only [Except.ok.injEq, Prod.mk.injEq] at h
        obtain ⟨-, hg⟩ := h
        subst hg
        simp only [List.length_append, List.length_cons, List.length_nil]
        omega
  · intro hcap hidx hname hdata hcomp hvao hloc
    simp [kuhl_geometry_attrib, hname, hdata, hcomp, hvao, hloc, hidx, hcap, isFatal]
  · intro hcap hidx hname htex hlive hvao hloc
    simp [kuhl_geometry_texture, hname, htex, hlive, hvao, hloc, hidx, hcap, isFatal]
  · intro i st' geom' hidx h
    simp only [kuhl_geometry_attrib] at h
    split at h
    · simp_all
    split at h
    · simp_all
    split at h
    · simp_all
    split at h
    · simp_all
    split at h
    · simp_all
    split at h
    case _ heq => simp_all
    case _ i' heq =>
      split at h <;>
      · simp only [glGenBuffer, glDeleteBuffer, setBufferData, Except.ok.injEq,
          Prod.mk.injEq] at h
        obtain ⟨-, hg⟩ := h
        subst hg
        simp [List.length_set]
  · intro i st' geom' hidx h
    simp only [kuhl_geometry_texture] at h
    split at h
    · simp_all
    split at h
    · simp_all
    split at h
    · simp_all
    split at h
    · simp_all
    split at h
    · simp_all
    split at h
    case _ i' heq =>
      simp only [Except.ok.injEq, Prod.mk.injEq] at h
      obtain ⟨-, hg⟩ := h
      subst hg
      simp [List.length_set]
    case _ heq => simp_all

/-- Witness for C7 at concrete inputs: a successful overwrite keeps the
counts at 1; adding a 33rd attribute name or a 9th texture name to a
full registry is fatal. -/
theorem kuhl_geometry_counts_capped_witness :
    kuhl_geometry_attrib exGLState exGeomOneAttrib (some [1, 2, 3, 1, 2, 3, 1, 2, 3]) 3
      "in_Position" false = .ok (exStAfterOverwrite, exGeomAfterOverwrite) ∧
    exGeomAfterOverwrite.attribs.length = exGeomOneAttrib.attribs.length ∧
    exGeomAfterOverwrite.attribs.length ≤ MAX_ATTRIBUTES ∧
    kuhl_geometry_texture exGLState exGeomOneTexture 3 "tex" false =
      .ok (exGLState, exGeomOneTexture) ∧
    exGeomOneTexture.textures.length ≤ MAX_TEXTURES ∧
    isFatal (kuhl_geometry_attrib exGLState exGeomFullAttribs (some [0]) 3 "in_Color" false) =
      true ∧
    isFatal (kuhl_geometry_texture exGLState exGeomFullTextures 3 "tex" false) = true := by
  have h9 := kuhl_geometry_counts_capped exGLState exGeomOneAttrib
    (some [1, 2, 3, 1, 2, 3, 1, 2, 3]) 3 "in_Position" false 3 "tex" false
  have hrun : kuhl_geometry_attrib exGLState exGeomOneAttrib
      (some [1, 2, 3, 1, 2, 3, 1, 2, 3]) 3 "in_Position" false =
      .ok (exStAfterOverwrite, exGeomAfterOverwrite) := by
    with_unfolding_all rfl
  have h9t := kuhl_geometry_counts_capped exGLState exGeomOneTexture (some [0]) 3
    "x" false 3 "tex" false
  have hrunt : kuhl_geometry_texture exGLState exGeomOneTexture 3 "tex" false =
      .ok (exGLState, exGeomOneTexture) := by
    with_unfolding_all rfl
  have hfull := kuhl_geometry_counts_capped exGLState exGeomFullAttribs (some [0]) 3
    "in_Color" false 3 "tex" false
  have hfullt := kuhl_geometry_counts_capped exGLState exGeomFullTextures (some [0]) 3
    "x" false 3 "tex" false
  refine ⟨hrun, ?_, ?_, hrunt, ?_, ?_, ?_⟩
  · exact h9.2.2.2.2.1 0 exStAfterOverwrite exGeomAfterOverwrite
      (by with_unfolding_all decide) hrun
  · exact h9.1 exStAfterOverwrite exGeomAfterOverwrite hrun (by with_unfolding_all decide)
  · exact h9t.2.1 exGLState exGeomOneTexture hrunt (by with_unfolding_all decide)
  · exact hfull.2.2.1 (by with_unfolding_all decide) (by with_unfolding_all decide)
      (by with_unfolding_all decide) (by with_unfolding_all decide)
      (by with_unfolding_all decide) (by with_unfolding_all decide)
      (by with_unfolding_all decide)
  · exact hfullt.2.2.2.1 (by with_unfolding_all decide) (by with_unfolding_all decide)
      (by with_unfolding_all decide) (by with_unfolding_all decide)
      (by with_unfolding_all decide) (by with_unfolding_all decide)
      (by with_unfolding_all decide)

end KuhlUtil

namespace KuhlUtil

/-- C8: `kuhl_geometry_indices` is a warned no-op when the index list is
NULL or empty; it is fatal when the count is not a multiple of the
primitive arity (3 for triangle topology, 2 for line topology); and in
every other case it succeeds and stores the index list unmodified (an
index `>= vertex_count` is reported per occurrence but neither aborts
the call nor alters the stored indices). -/
theorem kuhl_geometry_indices_arity_and_storage
    (st : GLState) (geom : KuhlGeometry) (indices : Option (List Nat)) :
    (indices = none ∨ indices = some [] →
      kuhl_geometry_indices st geom indices = .ok (st, geom)) ∧
    (∀ l, indices = some l → geom.primitive_type = .triangles → l.length % 3 ≠ 0 →
      isFatal (kuhl_geometry_indices st geom indices) = true) ∧
    (∀ l, indices = some l → geom.primitive_type = .lines → l.length % 2 ≠ 0 →
      isFatal (kuhl_geometry_indices st geom indices) = true) ∧
    (∀ l, indices = some l → l ≠ [] →
      (geom.primitive_type = .triangles → l.length % 3 = 0) →
      (geom.primitive_type = .lines → l.length % 2 = 0) →
      isFatal (kuhl_geometry_indices st geom indices) = false ∧
      ∀ st' geom', kuhl_geometry_indices st geom indices = .ok (st', geom') →
        geom'.indices = l ∧ geom'.indices_len = l.length) := by
  refine ⟨?_, ?_, ?_, ?_⟩
  · rintro (rfl | rfl) <;> simp [kuhl_geometry_indices]
  · rintro l rfl htri hmod
    simp [kuhl_geometry_indices, isFatal, htri, hmod]
    rcases eq_or_ne l [] with rfl | hne2
    · simp at hmod
    · simp [hne2]
  · rintro l rfl hlin hmod
    have hne : geom.primitive_type = PrimitiveType.triangles → False := by
      intro h; rw [h] at hlin; cases hlin
    simp [kuhl_geometry_indices, isFatal, hlin, hmod, hne]
    rcases eq_or_ne l [] with rfl | hne2
    · simp at hmod
    · simp [hne2]
  · rintro l rfl hnil htri hlin
    constructor
    · simp only [kuhl_geometry_indices, isFatal]
      rw [if_neg, if_neg, if_neg]
      · intro hc
        exact absurd (hlin hc.1) hc.2
      · intro hc
        exact absurd (htri hc.1) hc.2
      · simp [hnil]
    · intro st' geom' h
      simp only [kuhl_geometry_indices] at h
      split at h
      · simp_all
      split at h
      · simp_all
      split at h
      · simp_all
      simp only [glGenBuffer, setElementBufferData, Except.ok.injEq, Prod.mk.injEq] at h
      obtain ⟨-, hg⟩ := h
      subst hg
      simp

/-- Witness for C8 at concrete inputs: an empty list is a no-op; 4
indices on triangles and 3 on lines are fatal; 3 valid-and-invalid
indices on triangles succeed and are stored verbatim (index 7 is out of
range for 3 vertices and is still stored). -/
theorem kuhl_geometry_indices_arity_and_storage_witness :
    kuhl_geometry_indices exGLState exGeom (some []) = .ok (exGLState, exGeom) ∧
    isFatal (kuhl_geometry_indices exGLState exGeom (some [0, 1, 2, 0])) = true ∧
    isFatal (kuhl_geometry_indices exGLState
      { exGeom with primitive_type := .lines } (some [0, 1, 2])) = true ∧
    isFatal (kuhl_geometry_indices exGLState exGeom (some [0, 1, 7])) = false ∧
    ∀ st' geom', kuhl_geometry_indices exGLState exGeom (some [0, 1, 7]) = .ok (st', geom') →
      geom'.indices = [0, 1, 7] ∧ geom'.indices_len = 3 := by
  refine ⟨?_, ?_, ?_, ?_, ?_⟩
  · exact (kuhl_geometry_indices_arity_and_storage exGLState exGeom (some [])).1
      (Or.inr rfl)
  · exact (kuhl_geometry_indices_arity_and_storage exGLState exGeom
      (some [0, 1, 2, 0])).2.1 [0, 1, 2, 0] rfl (by with_unfolding_all decide)
      (by with_unfolding_all decide)
  · exact (kuhl_geometry_indices_arity_and_storage exGLState
      { exGeom with primitive_type := .lines } (some [0, 1, 2])).2.2.1 [0, 1, 2] rfl
      (by with_unfolding_all decide) (by with_unfolding_all decide)
  · exact ((kuhl_geometry_indices_arity_and_storage exGLState exGeom
      (some [0, 1, 7])).2.2.2 [0, 1, 7] rfl (by with_unfolding_all decide)
      (by with_unfolding_all decide) (by with_unfolding_all decide)).1
  · exact ((kuhl_geometry_indices_arity_and_storage exGLState exGeom
      (some [0, 1, 7])).2.2.2 [0, 1, 7] rfl (by with_unfolding_all decide)
      (by with_unfolding_all decide) (by with_unfolding_all decide)).2

end KuhlUtil

namespace KuhlUtil

/-- One heap cell of the geometry linked list: the node's payload plus
its `next` pointer (an arena index).  `kuhl_geometry_delete` is the one
operation whose behaviour depends on the `next` pointer itself, so it
is modelled on an arena of cells rather than on a Lean list. -/
structure GeomCell where
  geom : KuhlGeometry
  next : Option Nat

/-- The per-node release work of `kuhl_geometry_delete`
(kuhl-util.c:1377-1397): free every attribute slot's name and live
buffer and zero the slot (count becomes 0), delete the live index
buffer, delete the live vertex-array object, clear the drawn flag.
Textures and the shader program are never touched. -/
def kuhl_geometry_release (st : GLState) (g : KuhlGeometry) : GLState × KuhlGeometry :=
  let st1 := g.attribs.foldl
    (fun s a => if glIsBuffer s a.bufferobject then glDeleteBuffer s a.bufferobject else s) st
  let st2 := if glIsBuffer st1 g.indices_bufferobject then
      glDeleteBuffer st1 g.indices_bufferobject else st1
  let st3 := if glIsVertexArray st2 g.vao then
      { st2 with liveVAOs := st2.liveVAOs.filter (fun v => v != g.vao) } else st2
  (st3,
   { g with attribs := [], indices_bufferobject := 0, indices_len := 0, vao := 0,
            has_been_drawn := false })

/-- `kuhl_geometry_delete` (kuhl-util.c:1372-1398), fuel-indexed.  The C
body is `while(geom->next != NULL) kuhl_geometry_delete(geom->next);`
followed by the release of this node; the recursive call never clears
the CALLER's `next` pointer (and the release never clears `next`
either), so after the inner call returns, the loop re-reads the same
non-NULL `next` and runs again.  Re-entering the loop is modelled by
re-invoking the function on the same address; `none` means the fuel ran
out, i.e. the C code makes no progress within that many steps. -/
def kuhl_geometry_delete_fuel :
    Nat → GLState → List GeomCell → Nat → Option (GLState × List GeomCell)
  | 0, _, _, _ => none
  | fuel + 1, st, heap, addr =>
    match heap[addr]? with
    | none => none
    | some cell =>
      match cell.next with
      | some n =>
        match kuhl_geometry_delete_fuel fuel st heap n with
        | none => none
        | some (st', heap') => kuhl_geometry_delete_fuel fuel st' heap' addr
      | none =>
        let (st', g') := kuhl_geometry_release st cell.geom
        some (st', heap.set addr ⟨g', cell.next⟩)

/-- `exGeom` after `kuhl_geometry_delete`'s release step. -/
def exGeomReleased : KuhlGeometry :=
  { exGeom with attribs := [], indices_bufferobject := 0, indices_len := 0, vao := 0,
                has_been_drawn := false }

/-- A two-node geometry list: node 0 links to node 1, node 1 ends the
list. -/
def exHeapA : List GeomCell := [⟨exGeom, some 1⟩, ⟨exGeom, none⟩]

/-- The two-node list after node 1 has been released once (node 0's
`next` still points at node 1). -/
def exHeapB : List GeomCell := [⟨exGeom, some 1⟩, ⟨exGeomReleased, none⟩]

/-- One-step unfolding of `kuhl_geometry_delete_fuel` at positive fuel. -/
theorem kuhl_geometry_delete_fuel_succ (fuel : Nat) (st : GLState) (heap : List GeomCell)
    (addr : Nat) :
    kuhl_geometry_delete_fuel (fuel + 1) st heap addr =
      match heap[addr]? with
      | none => none
      | some cell =>
        match cell.next with
        | some n =>
          match kuhl_geometry_delete_fuel fuel st heap n with
          | none => none
          | some (st', heap') => kuhl_geometry_delete_fuel fuel st' heap' addr
        | none =>
          let (st', g') := kuhl_geometry_release st cell.geom
          some (st', heap.set addr ⟨g', cell.next⟩) := rfl

/-- Deleting the tail node of `exHeapA` terminates in one step and
yields `exHeapB`. -/
theorem kuhl_geometry_delete_fuel_tailA (f : Nat) (st : GLState) :
    kuhl_geometry_delete_fuel (f + 1) st exHeapA 1 =
      some ((kuhl_geometry_release st exGeom).1, exHeapB) := by
  simp [kuhl_geometry_delete_fuel, exHeapA, exHeapB, kuhl_geometry_release, exGeomReleased]

/-- Deleting the already-released tail node of `exHeapB` terminates in
one step and leaves the heap at `exHeapB`. -/
theorem kuhl_geometry_delete_fuel_tailB (f : Nat) (st : GLState) :
    kuhl_geometry_delete_fuel (f + 1) st exHeapB 1 =
      some ((kuhl_geometry_release st exGeomReleased).1, exHeapB) := by
  simp [kuhl_geometry_delete_fuel, exHeapB, kuhl_geometry_release, exGeomReleased]

/-- C1: `kuhl_geometry_delete` does NOT terminate on a finite list of
two nodes: whatever fuel it is given, deleting the head of the two-node
list `exHeapA` (or of its once-released variant `exHeapB`) makes no
progress, because the recursive call on `next` never nulls the caller's
`next` pointer and the `while` loop therefore re-runs forever. -/
theorem kuhl_geometry_delete_nonterminating (fuel : Nat) (st : GLState) :
    kuhl_geometry_delete_fuel fuel st exHeapA 0 = none ∧
    kuhl_geometry_delete_fuel fuel st exHeapB 0 = none := by
  induction fuel generalizing st with
  | zero => exact ⟨rfl, rfl⟩
  | succ f ih =>
    constructor
    · rw [kuhl_geometry_delete_fuel_succ]
      show (match kuhl_geometry_delete_fuel f st exHeapA 1 with
            | none => none
            | some (st', heap') => kuhl_geometry_delete_fuel f st' heap' 0) = none
      cases f with
      | zero => rfl
      | succ g =>
        rw [kuhl_geometry_delete_fuel_tailA g st]
        exact (ih ((kuhl_geometry_release st exGeom).1)).2
    · rw [kuhl_geometry_delete_fuel_succ]
      show (match kuhl_geometry_delete_fuel f st exHeapB 1 with
            | none => none
            | some (st', heap') => kuhl_geometry_delete_fuel f st' heap' 0) = none
      cases f with
      | zero => rfl
      | succ g =>
        rw [kuhl_geometry_delete_fuel_tailB g st]
        exact (ih ((kuhl_geometry_release st exGeomReleased).1)).2

end KuhlUtil

namespace KuhlUtil

/-- The start-key scan shared by the three tracks of
`kuhl_private_anim_matrix` (kuhl-util.c:2400-2406, 2433-2439,
2466-2472): `start = 0; for j in [0, n-1): if (ticks < time[j+1])
{ start = j; break; }`.  The scan walks the key times AFTER the first
one, carrying the candidate index `j`; `none` means the loop never
broke and `start` keeps its initial value 0. -/
def kuhl_key_start_scan (ticks : ℚ) : List ℚ → Nat → Option Nat
  | [], _ => none
  | t :: rest, j => if ticks < t then some j else kuhl_key_start_scan ticks rest (j + 1)

/-- The start index produced by the scan (0 when the loop never
breaks, which includes the empty and single-key tracks). -/
def kuhl_key_start (times : List ℚ) (ticks : ℚ) : Nat :=
  (kuhl_key_start_scan ticks times.tail 0).getD 0

/-- The (start, end, factor) triple computed per track by
`kuhl_private_anim_matrix` (kuhl-util.c:2400-2416): `end = start + 1`
clamped back to `start` when it runs off the key array, and
`factor = (ticks - time[start]) / deltaTime` guarded to 0 when
`deltaTime` is 0.  `getD .. 0` stands for the C's direct array indexing
(out of bounds only for an empty key array, which is undefined
behaviour in the C). -/
def kuhl_key_pair (times : List ℚ) (ticks : ℚ) : Nat × Nat × ℚ :=
  let s := kuhl_key_start times ticks
  let e := if s + 1 ≥ times.length then s else s + 1
  let dt := times.getD e 0 - times.getD s 0
  (s, e, if dt ≠ 0 then (ticks - times.getD s 0) / dt else 0)

/-- The linear interpolation of the position/scaling tracks
(kuhl-util.c:2426-2428): `start*(1-factor) + end*factor`
componentwise. -/
def vec3Lerp (a b : Vec3) (factor : ℚ) : Vec3 :=
  ⟨a.x * (1 - factor) + b.x * factor,
   a.y * (1 - factor) + b.y * factor,
   a.z * (1 - factor) + b.z * factor⟩

/-- Modelled from the spec: `mat4f_translateVec_new` of the missing
vecmat library, a homogeneous translation matrix. -/
def mat4fTranslateVec (v : Vec3) : Mat4 :=
  fun i j =>
    if j = 3 then (if i = 0 then v.x else if i = 1 then v.y else if i = 2 then v.z else 1)
    else if i = j then 1 else 0

/-- Modelled from the spec: `mat4f_scaleVec_new` of the missing vecmat
library, a diagonal scale matrix. -/
def mat4fScaleVec (v : Vec3) : Mat4 :=
  fun i j =>
    if i = j then (if i = 0 then v.x else if i = 1 then v.y else if i = 2 then v.z else 1)
    else 0

/-- Modelled from the spec: the two quaternion operations of the
missing vecmat library (`quatf_slerp_new` and
`mat4f_rotateQuatVec_new`) involve trigonometric functions, so the
evaluator is parametrized over them; every claim proved below holds for
any implementation. -/
structure QuatOps where
  slerp : Quat → Quat → ℚ → Quat
  rotationMatrix : Quat → Mat4

/-- `kuhl_private_anim_matrix` (kuhl-util.c:2396-2499): per track, find
the (start, end, factor) triple, interpolate (linearly for
position/scale, spherically for rotation), and compose
`translation * rotation * scale`. -/
def kuhl_private_anim_matrix (ops : QuatOps) (na : AiNodeAnim) (ticks : ℚ) : Mat4 :=
  let p := kuhl_key_pair (na.positionKeys.map (fun k => k.time)) ticks
  let pStart := (na.positionKeys.getD p.1 ⟨0, ⟨0, 0, 0⟩⟩).value
  let pEnd := (na.positionKeys.getD p.2.1 ⟨0, ⟨0, 0, 0⟩⟩).value
  let positionMatrix := mat4fTranslateVec (vec3Lerp pStart pEnd p.2.2)
  let r := kuhl_key_pair (na.rotationKeys.map (fun k => k.time)) ticks
  let rStart := (na.rotationKeys.getD r.1 ⟨0, ⟨0, 0, 0, 1⟩⟩).value
  let rEnd := (na.rotationKeys.getD r.2.1 ⟨0, ⟨0, 0, 0, 1⟩⟩).value
  let rotationMatrix := ops.rotationMatrix (ops.slerp rStart rEnd r.2.2)
  let s := kuhl_key_pair (na.scalingKeys.map (fun k => k.time)) ticks
  let sStart := (na.scalingKeys.getD s.1 ⟨0, ⟨1, 1, 1⟩⟩).value
  let sEnd := (na.scalingKeys.getD s.2.1 ⟨0, ⟨1, 1, 1⟩⟩).value
  let scalingMatrix := mat4fScaleVec (vec3Lerp sStart sEnd s.2.2)
  mat4fMultMat4f (mat4fMultMat4f positionMatrix rotationMatrix) scalingMatrix

/-- `kuhl_private_node_matrix` (kuhl-util.c:2526-2565): returns the
node's static authored matrix with `false` (the C's return value 0)
when the animation index is out of range, the time is negative, the
time in ticks exceeds the animation's duration, or no channel matches
the node's name; otherwise evaluates the matching channel with `true`
(the C's return value 1). -/
def kuhl_private_node_matrix (ops : QuatOps) (scene : AiScene) (node : AiNode)
    (animationNum : Nat) (t : ℚ) : Mat4 × Bool :=
  if animationNum ≥ scene.animations.length ∨ t < 0 then (node.transformation, false)
  else
    let anim := scene.animations.getD animationNum ⟨0, 0, []⟩
    let currentTick := t * anim.ticksPerSecond
    if currentTick > anim.duration then (node.transformation, false)
    else
      match anim.channels.find? (fun ch => ch.nodeName == node.name) with
      | some na => (kuhl_private_anim_matrix ops na currentTick, true)
      | none => (node.transformation, false)

/-- The key selection as the specification words it (C4): the
bracketing pair `[k, k+1]` such that `ticks < time[k+1]`, degenerating
to the last keyframe when `ticks` exceeds every keyframe time after
the first; factor `(ticks - t_k)/(t_{k+1} - t_k)`, or 0 when the two
selected times are equal. -/
def specKeySelect (times : List ℚ) (ticks : ℚ) : Nat × Nat × ℚ :=
  match times.tail.findIdx? (fun tm => decide (ticks < tm)) with
  | some k =>
    let dt := times.getD (k + 1) 0 - times.getD k 0
    (k, k + 1, if dt ≠ 0 then (ticks - times.getD k 0) / dt else 0)
  | none => (times.length - 1, times.length - 1, 0)

end KuhlUtil

namespace KuhlUtil

/-- The start-key scan is `List.findIdx?` with a start offset. -/
theorem kuhl_key_start_scan_eq (ticks : ℚ) (l : List ℚ) (j : Nat) :
    kuhl_key_start_scan ticks l j = l.findIdx? (fun tm => decide (ticks < tm)) j := by
  induction l generalizing j with
  | nil => rfl
  | cons t rest ih => simp [kuhl_key_start_scan, List.findIdx?_cons, ih]

/-- Quaternion operations used by the concrete witnesses (the claims
hold for any implementation). -/
def exQuatOps : QuatOps := ⟨fun a _ _ => a, fun _ => mat4fIdentity⟩

/-- A channel-free animation of duration 2 ticks at 1 tick per second,
used by the concrete witnesses. -/
def exAnim : AiAnimation := ⟨2, 1, []⟩

/-- A scene holding only `exAnim`, used by the concrete witnesses. -/
def exSceneAnim : AiScene := ⟨[], 0, [exAnim]⟩

/-- A standalone node, used by the concrete witnesses. -/
def exNode : AiNode := ⟨"node", mat4fIdentity, none, [], []⟩

/-- C5: `kuhl_private_node_matrix` returns the node's static authored
matrix and reports that no animation was applied (`false`) whenever the
animation index is out of range or the time is negative; the same
fallback happens whenever the requested time converted to ticks exceeds
the animation's declared duration.  This holds for every node, every
keyframe content, and every implementation of the quaternion
operations. -/
theorem kuhl_private_node_matrix_fallback (ops : QuatOps) (scene : AiScene) (node : AiNode)
    (animationNum : Nat) (t : ℚ) :
    (animationNum ≥ scene.animations.length ∨ t < 0 →
      kuhl_private_node_matrix ops scene node animationNum t = (node.transformation, false)) ∧
    (∀ anim, scene.animations[animationNum]? = some anim →
      t * anim.ticksPerSecond > anim.duration →
      kuhl_private_node_matrix ops scene node animationNum t = (node.transformation, false)) := by
  constructor
  · intro h
    simp [kuhl_private_node_matrix, h]
  · intro anim hget htick
    by_cases hcond : animationNum ≥ scene.animations.length ∨ t < 0
    · simp [kuhl_private_node_matrix, hcond]
    · simp [kuhl_private_node_matrix, hcond, List.getD_eq_getElem?_getD, hget, htick]

/-- Witness for C5 at concrete inputs: animation index 5 is out of
range for a one-animation scene; time -1 is negative; time 3 converts
to 3 ticks which exceeds the 2-tick duration.  All three return the
static matrix with `false`. -/
theorem kuhl_private_node_matrix_fallback_witness :
    kuhl_private_node_matrix exQuatOps exSceneAnim exNode 5 1 =
      (exNode.transformation, false) ∧
    kuhl_private_node_matrix exQuatOps exSceneAnim exNode 0 (-1) =
      (exNode.transformation, false) ∧
    kuhl_private_node_matrix exQuatOps exSceneAnim exNode 0 3 =
      (exNode.transformation, false) := by
  refine ⟨?_, ?_, ?_⟩
  · exact (kuhl_private_node_matrix_fallback exQuatOps exSceneAnim exNode 5 1).1
      (Or.inl (by with_unfolding_all decide))
  · exact (kuhl_private_node_matrix_fallback exQuatOps exSceneAnim exNode 0 (-1)).1
      (Or.inr (by with_unfolding_all decide))
  · exact (kuhl_private_node_matrix_fallback exQuatOps exSceneAnim exNode 0 3).2
      exAnim rfl (by with_unfolding_all decide)

/-- C4: counterexample to the claimed keyframe selection.  With key
times `[0, 1]` and `ticks = 2` (reachable whenever the declared
duration exceeds the last key time), the code selects the pair `(0, 1)`
with factor `2` — an extrapolation from the FIRST pair — whereas the
claim ("bracketing pair with ticks < key[k+1].time, degenerating to the
last keyframe when ticks exceeds all but the last") prescribes the last
keyframe, i.e. `(1, 1, 0)`.  The interpolated position on keys
`(0,0,0) -> (1,0,0)` is accordingly the extrapolated `(2,0,0)`, not the
last key's value. -/
theorem kuhl_key_pair_counterexample :
    kuhl_key_pair [0, 1] 2 = (0, 1, 2) ∧
    specKeySelect [0, 1] 2 = (1, 1, 0) ∧
    ((0, 1, (2 : ℚ)) : Nat × Nat × ℚ) ≠ (1, 1, 0) ∧
    vec3Lerp ⟨0, 0, 0⟩ ⟨1, 0, 0⟩ 2 = ⟨2, 0, 0⟩ := by
  refine ⟨?_, ?_, ?_, ?_⟩ <;> with_unfolding_all decide

/-- C4 (amended): the track interpolator of `kuhl_private_anim_matrix`
agrees with the spec's bracketing selection exactly when a bracketing
pair exists (some later key time exceeds `ticks`); when none exists and
the track has at least two keys, the start index stays 0 and the pair
`(0, 1)` is used — with factor at least 1 (extrapolation) whenever the
first two key times are increasing — rather than degenerating to the
last keyframe; a single-key track degenerates to that key with factor
0; and the factor is 0 whenever the two selected key times are equal,
so no division by zero occurs. -/
theorem kuhl_key_pair_amended (times : List ℚ) (ticks : ℚ) :
    (∀ k, times.tail.findIdx? (fun tm => decide (ticks < tm)) = some k →
      kuhl_key_pair times ticks = specKeySelect times ticks) ∧
    (times.tail.findIdx? (fun tm => decide (ticks < tm)) = none → 2 ≤ times.length →
      (kuhl_key_pair times ticks).1 = 0 ∧ (kuhl_key_pair times ticks).2.1 = 1) ∧
    (∀ t0 : ℚ, times = [t0] → kuhl_key_pair times ticks = (0, 0, 0)) ∧
    (times.getD (kuhl_key_pair times ticks).2.1 0 = times.getD (kuhl_key_pair times ticks).1 0 →
      (kuhl_key_pair times ticks).2.2 = 0) ∧
    (times.tail.findIdx? (fun tm => decide (ticks < tm)) = none → 2 ≤ times.length →
      times.getD 0 0 < times.getD 1 0 → 1 ≤ (kuhl_key_pair times ticks).2.2) := by
  refine ⟨?_, ?_, ?_, ?_, ?_⟩
  · intro k hk
    have hs : kuhl_key_start times ticks = k := by
      simp [kuhl_key_start, kuhl_key_start_scan_eq, hk]
    have hklen : k < times.tail.length := (List.findIdx?_eq_some_iff_findIdx_eq.mp hk).1
    have hlen : k + 1 < times.length := by
      cases times with
      | nil => simp at hklen
      | cons t0 rest => simpa using Nat.succ_lt_succ (by simpa using hklen)
    simp only [kuhl_key_pair, specKeySelect, hk, hs]
    rw [if_neg (by omega)]
  · intro hnone hlen2
    have hs : kuhl_key_start times ticks = 0 := by
      simp [kuhl_key_start, kuhl_key_start_scan_eq, hnone]
    have hnotge : ¬ (0 + 1 ≥ times.length) := by omega
    simp [kuhl_key_pair, hs, hnotge]
  · rintro t0 rfl
    simp [kuhl_key_pair, kuhl_key_start, kuhl_key_start_scan]
  · intro h
    simp only [kuhl_key_pair] at h ⊢
    rw [h, sub_self]
    simp
  · intro hnone hlen2 hlt01
    cases times with
    | nil => simp at hlen2
    | cons t0 rest =>
      cases rest with
      | nil => simp at hlen2
      | cons t1 rest2 =>
        have hnone' : List.findIdx? (fun tm => decide (ticks < tm)) (t1 :: rest2) = none :=
          hnone
        have hge : ¬ ticks < t1 := by
          have h := List.findIdx?_eq_none_iff.mp hnone' t1 (by simp)
          simpa using h
        have hle : t1 ≤ ticks := not_lt.mp hge
        have ht01 : t0 < t1 := by
          simpa using hlt01
        have hs : kuhl_key_start (t0 :: t1 :: rest2) ticks = 0 := by
          simp [kuhl_key_start, kuhl_key_start_scan_eq, hnone']
        have hdt : t1 - t0 ≠ 0 := sub_ne_zero_of_ne (ne_of_gt ht01)
        have hlen' : ¬ (0 + 1 ≥ (t0 :: t1 :: rest2).length) := by simp
        simp [kuhl_key_pair, hs, hlen', hdt]
        rw [le_div_iff₀ (by linarith)]
        linarith

/-- Witness for C4 (amended) at concrete inputs: with keys `[0, 1]`,
`ticks = 1/2` brackets normally and agrees with the spec's selection;
`ticks = 2` keeps start 0, uses pair (0, 1), and extrapolates with
factor at least 1; a single-key track `[5]` degenerates to `(0, 0, 0)`;
and equal key times `[3, 3]` force factor 0. -/
theorem kuhl_key_pair_amended_witness :
    kuhl_key_pair [0, 1] (1 / 2) = specKeySelect [0, 1] (1 / 2) ∧
    (kuhl_key_pair [0, 1] 2).1 = 0 ∧ (kuhl_key_pair [0, 1] 2).2.1 = 1 ∧
    1 ≤ (kuhl_key_pair [0, 1] 2).2.2 ∧
    kuhl_key_pair [5] 7 = (0, 0, 0) ∧
    (kuhl_key_pair [3, 3] 4).2.2 = 0 := by
  have h1 := (kuhl_key_pair_amended [0, 1] (1 / 2)).1 0 (by with_unfolding_all decide)
  have h2 := (kuhl_key_pair_amended [0, 1] 2).2.1 (by with_unfolding_all decide)
    (by with_unfolding_all decide)
  have h5 := (kuhl_key_pair_amended [0, 1] 2).2.2.2.2 (by with_unfolding_all decide)
    (by with_unfolding_all decide) (by with_unfolding_all decide)
  have h3 := (kuhl_key_pair_amended [5] 7).2.2.1 5 rfl
  have h4 := (kuhl_key_pair_amended [3, 3] 4).2.2.2.1 (by with_unfolding_all decide)
  exact ⟨h1, h2.1, h2.2, h5, h3, h4⟩

end KuhlUtil

namespace KuhlUtil

/-- The error modes of the bone-attribute construction: the C's
`exit(EXIT_FAILURE)` gates (too many bones, a vertex with no weight)
and a write past the end of the malloc'd per-vertex arrays (undefined
behaviour in the C). -/
inductive BoneBuildErr where
  | tooManyBones
  | outOfBoundsWrite
  | zeroWeight
deriving DecidableEq, Repr

/-- A bounds-checked store into a flat float array; `none` models a
write past the end of the allocation (heap corruption in the C). -/
def writeAt (l : List ℚ) (i : Nat) (v : ℚ) : Option (List ℚ) :=
  if i < l.length then some (l.set i v) else none

/-- The inner weight-list scan of the bone loop (kuhl-util.c:2813-2826):
for every weight entry of bone `j` whose vertex id equals `i`, store
the bone index and the weight at slot `i*4 + count` and increment
`count`.  There is NO bound on `count` in the C code. -/
def kuhl_bone_weight_scan (i : Nat) (j : Nat) :
    List AiVertexWeight → List ℚ × List ℚ → Nat →
    Except BoneBuildErr (List ℚ × List ℚ × Nat)
  | [], arrays, count => .ok (arrays.1, arrays.2, count)
  | w :: rest, arrays, count =>
    if w.vertexId == i then
      match writeAt arrays.1 (i * 4 + count) (j : ℚ),
            writeAt arrays.2 (i * 4 + count) w.weight with
      | some ind, some wei => kuhl_bone_weight_scan i j rest (ind, wei) (count + 1)
      | _, _ => .error .outOfBoundsWrite
    else kuhl_bone_weight_scan i j rest arrays count

/-- The per-vertex bone loop (kuhl-util.c:2810-2827): scan every bone's
weight list in order, carrying the running influence count. -/
def kuhl_bone_bones_scan (i : Nat) :
    List AiBone → Nat → List ℚ × List ℚ → Nat →
    Except BoneBuildErr (List ℚ × List ℚ)
  | [], _, arrays, _ => .ok arrays
  | b :: rest, j, arrays, count =>
    match kuhl_bone_weight_scan i j b.weights arrays count with
    | .error e => .error e
    | .ok (ind, wei, c') => kuhl_bone_bones_scan i rest (j + 1) (ind, wei) c'

/-- Zero the 4 slots of vertex `i` (kuhl-util.c:2799-2805). -/
def kuhl_bone_zero_slots (i : Nat) (arrays : List ℚ × List ℚ) :
    Except BoneBuildErr (List ℚ × List ℚ) :=
  match (List.range 4).foldl
      (fun acc j =>
        match acc with
        | none => none
        | some (ind, wei) =>
          match writeAt ind (i * 4 + j) 0, writeAt wei (i * 4 + j) 0 with
          | some ind', some wei' => some (ind', wei')
          | _, _ => none)
      (some arrays) with
  | some a => .ok a
  | none => .error .outOfBoundsWrite

/-- The vertex loop (kuhl-util.c:2796-2828): for each vertex, zero its 4
slots, then scan all bones for influences on it. -/
def kuhl_bone_vertex_loop (bones : List AiBone) :
    Nat → Nat → List ℚ × List ℚ → Except BoneBuildErr (List ℚ × List ℚ)
  | 0, _, arrays => .ok arrays
  | remaining + 1, i, arrays =>
    match kuhl_bone_zero_slots i arrays with
    | .error e => .error e
    | .ok a1 =>
      match kuhl_bone_bones_scan i bones 0 a1 0 with
      | .error e => .error e
      | .ok a2 => kuhl_bone_vertex_loop bones remaining (i + 1) a2

/-- The bone index/weight attribute construction of
`kuhl_private_load_model` (kuhl-util.c:2784-2842): fatal when the mesh
has more than `MAX_BONES` bones; allocate `numVertices*4` floats for
each of the two arrays; run the vertex loop; and fatal when any
vertex's first weight slot is still zero afterwards.  Note the C loop
places the `count`-th influence of vertex `i` at flat index
`i*4 + count` with no cap on `count`, so a fifth influence writes into
the NEXT vertex's first slot — past the end of the allocation when `i`
is the last vertex. -/
def kuhl_load_model_bone_arrays (numVertices : Nat) (bones : List AiBone) :
    Except BoneBuildErr (List ℚ × List ℚ) :=
  if bones.length > MAX_BONES then .error .tooManyBones
  else
    let init : List ℚ × List ℚ :=
      (List.replicate (numVertices * 4) 0, List.replicate (numVertices * 4) 0)
    match kuhl_bone_vertex_loop bones numVertices 0 init with
    | .error e => .error e
    | .ok (ind, wei) =>
      match (List.range numVertices).find? (fun i => wei.getD (i * 4) 0 == 0) with
      | some _ => .error .zeroWeight
      | none => .ok (ind, wei)

/-- Five bones, each contributing one nonzero weight to vertex 0. -/
def exBones5 : List AiBone :=
  [⟨"b0", mat4fIdentity, [⟨0, 1 / 5⟩]⟩,
   ⟨"b1", mat4fIdentity, [⟨0, 1 / 5⟩]⟩,
   ⟨"b2", mat4fIdentity, [⟨0, 1 / 5⟩]⟩,
   ⟨"b3", mat4fIdentity, [⟨0, 1 / 5⟩]⟩,
   ⟨"b4", mat4fIdentity, [⟨0, 1 / 5⟩]⟩]

/-- The first four bones of `exBones5`. -/
def exBones4 : List AiBone := exBones5.take 4

/-- One bone whose only weight entry references a vertex that does not
exist in a 1-vertex mesh. -/
def exBoneMiss : List AiBone := [⟨"b0", mat4fIdentity, [⟨5, 1⟩]⟩]

end KuhlUtil

namespace KuhlUtil

/-- C3: the bone-attribute construction does NOT cap at 4 influences
per vertex.  On a 1-vertex mesh with 5 influencing bones, the fifth
influence is written at flat index 4 of a 4-float allocation — past the
end of the array (undefined behaviour), not silently dropped as the
claim states.  With only 4 influences the construction succeeds and
records all four bone indices and their raw weights (summing to 4/5,
i.e. no renormalization); and a vertex left with zero weight is fatal
as claimed. -/
theorem kuhl_load_model_bone_arrays_fifth_influence :
    kuhl_load_model_bone_arrays 1 exBones5 = .error .outOfBoundsWrite ∧
    kuhl_load_model_bone_arrays 1 exBones4 =
      .ok ([0, 1, 2, 3], [1 / 5, 1 / 5, 1 / 5, 1 / 5]) ∧
    kuhl_load_model_bone_arrays 1 exBoneMiss = .error .zeroWeight := by
  refine ⟨?_, ?_, ?_⟩ <;> with_unfolding_all rfl

end KuhlUtil

namespace KuhlUtil

/-- `glBindTexture(GL_TEXTURE_2D, t)`: sets the 2D binding of the
currently active texture unit. -/
def bindTexture2D (st : GLState) (t : Nat) : GLState :=
  { st with texBinding := fun u => if u = st.activeUnit then t else st.texBinding u }

/-- The per-node body of `kuhl_geometry_draw` (kuhl-util.c:1184-1354).
The entry point records the current program, the 2D binding of the
active texture unit, the active texture unit, and the bound vertex
array.  An invalid program or vertex-array object returns early (third
component `false`) WITHOUT drawing the rest of the list.  Otherwise the
node's program is bound; each texture whose id is live and whose
sampler is active is bound to its sequential texture unit; the vertex
array is bound; mapped attribute buffers are unmapped (leaving the
array-buffer binding at 0); the draw call and the uniform uploads
(samplers, HasTex, BoneMat/NumBones, GeomTransform and its one-time
missing-variable diagnostic) are device commands with no effect on the
modelled state; the used texture units are unbound; the drawn flag is
set; and the four recorded registers are restored. -/
def kuhl_geometry_draw_node (st0 : GLState) (geom : KuhlGeometry) :
    GLState × KuhlGeometry × Bool :=
  let prevProgram := st0.currentProgram
  let prevTexture := st0.texBinding st0.activeUnit
  let prevActive := st0.activeUnit
  let prevVAO := st0.boundVAO
  if ¬ (glIsProgram st0 geom.program && glIsVertexArray st0 geom.vao) then
    (st0, geom, false)
  else
    let st1 := { st0 with currentProgram := geom.program }
    let st2 := (List.range geom.textures.length).foldl
      (fun s i =>
        let tex := geom.textures.getD i ⟨"", 0⟩
        if ¬ glIsTexture s tex.textureId then s
        else if glGetUniformLocation s geom.program tex.name = -1 then s
        else bindTexture2D { s with activeUnit := i } tex.textureId)
      st1
    let st3 := { st2 with boundVAO := geom.vao }
    let st4 := geom.attribs.foldl
      (fun s a =>
        { s with mappedBuffers := s.mappedBuffers.filter (fun b => b != a.bufferobject),
                 boundArrayBuffer := 0 })
      st3
    let st5 := (List.range geom.textures.length).foldl
      (fun s i => bindTexture2D { s with activeUnit := i } 0)
      st4
    let st6 := { st5 with activeUnit := prevActive }
    let st7 := bindTexture2D st6 prevTexture
    let st8 := { st7 with currentProgram := prevProgram, boundVAO := prevVAO }
    (st8, { geom with has_been_drawn := true }, true)

/-- `kuhl_geometry_draw` (kuhl-util.c:1177-1358) over the linked list:
draw this node, then the rest of the list — except that the
invalid-program/VAO early return also skips the rest of the list. -/
def kuhl_geometry_draw : GLState → List KuhlGeometry → GLState × List KuhlGeometry
  | st, [] => (st, [])
  | st, g :: rest =>
    match kuhl_geometry_draw_node st g with
    | (st', g', false) => (st', g' :: rest)
    | (st', g', true) =>
      let r := kuhl_geometry_draw st' rest
      (r.1, g' :: r.2)

/-- The per-node draw body restores the four recorded binding
registers. -/
theorem kuhl_geometry_draw_node_restores (st : GLState) (geom : KuhlGeometry) :
    ((kuhl_geometry_draw_node st geom).1.currentProgram = st.currentProgram) ∧
    ((kuhl_geometry_draw_node st geom).1.activeUnit = st.activeUnit) ∧
    ((kuhl_geometry_draw_node st geom).1.boundVAO = st.boundVAO) ∧
    ((kuhl_geometry_draw_node st geom).1.texBinding st.activeUnit =
      st.texBinding st.activeUnit) := by
  simp only [kuhl_geometry_draw_node]
  split
  · exact ⟨rfl, rfl, rfl, rfl⟩
  · refine ⟨rfl, rfl, rfl, ?_⟩
    simp [bindTexture2D]

end KuhlUtil

namespace KuhlUtil

/-- C9: drawing a geometry list restores every global device binding
register it changes and records at entry — the current program, the
active texture unit, the bound vertex array, and the 2D texture binding
of the previously active unit — before returning, for every device
state and every list.  (Texture units other than the previously active
one are left unbound, per the spec's "unbind all bound textures"
step.) -/
theorem kuhl_geometry_draw_restores_bindings (st : GLState) (gs : List KuhlGeometry) :
    ((kuhl_geometry_draw st gs).1.currentProgram = st.currentProgram) ∧
    ((kuhl_geometry_draw st gs).1.activeUnit = st.activeUnit) ∧
    ((kuhl_geometry_draw st gs).1.boundVAO = st.boundVAO) ∧
    ((kuhl_geometry_draw st gs).1.texBinding st.activeUnit =
      st.texBinding st.activeUnit) := by
  induction gs generalizing st with
  | nil => exact ⟨rfl, rfl, rfl, rfl⟩
  | cons g rest ih =>
    have hnode := kuhl_geometry_draw_node_restores st g
    simp only [kuhl_geometry_draw]
    split
    case _ st' g' heq =>
      rw [heq] at hnode
      exact hnode
    case _ st' g' heq =>
      rw [heq] at hnode
      have hrest := ih st'
      refine ⟨?_, ?_, ?_, ?_⟩
      · rw [hrest.1, hnode.1]
      · rw [hrest.2.1, hnode.2.1]
      · rw [hrest.2.2.1, hnode.2.2.1]
      · rw [← hnode.2.2.2, ← hnode.2.1]
        exact hrest.2.2.2

end KuhlUtil

namespace KuhlUtil

/-- `kuhl_assimp_find_node` (kuhl-util.c:1994-2006), fuel-indexed over
the node arena: pre-order search by name through the children.  `none`
covers both "not found" (the C's NULL) and a dangling/cyclic arena
(undefined in the C, impossible for a parser-produced tree). -/
def kuhl_assimp_find_node (nodes : List AiNode) :
    Nat → String → Nat → Option Nat
  | 0, _, _ => none
  | fuel + 1, nodeName, idx =>
    match nodes[idx]? with
    | none => none
    | some node =>
      if node.name == nodeName then some idx
      else
        node.children.foldl
          (fun acc c =>
            match acc with
            | some r => some r
            | none => kuhl_assimp_find_node nodes fuel nodeName c)
          none

/-- The upward walk of `kuhl_update_model` (kuhl-util.c:2972-2979 and
2999-3013): starting from a node, repeatedly pre-multiply the node's
(possibly animated) matrix into the accumulator and move to the parent
until the root.  Fuel-indexed; `none` models a dangling reference or a
cyclic parent chain (where the C loops forever or faults). -/
def kuhl_node_matrix_walk (ops : QuatOps) (scene : AiScene) :
    Nat → Nat → Nat → ℚ → Mat4 → Option Mat4
  | 0, _, _, _, _ => none
  | fuel + 1, idx, animationNum, t, acc =>
    match scene.nodes[idx]? with
    | none => none
    | some node =>
      let acc' := mat4fMultMat4f (kuhl_private_node_matrix ops scene node animationNum t).1 acc
      match node.parent with
      | none => some acc'
      | some p => kuhl_node_matrix_walk ops scene fuel p animationNum t acc'

/-- The fatal and undefined outcomes of `kuhl_update_model`: a bone
whose name matches no scene node (the C's `exit(EXIT_FAILURE)`), and a
dangling/cyclic node reference (undefined in the C). -/
inductive UpdateErr where
  | missingBoneNode
  | invalidNodeRef
deriving DecidableEq, Repr

/-- The guard of `kuhl_update_model`'s loop body (kuhl-util.c:2957):
the geometry is skipped when its scene is NULL, its scene has no
animations, or its node is NULL. -/
def updateSkipped (g : KuhlGeometry) : Prop :=
  g.assimp_scene = none ∨
  (∃ s, g.assimp_scene = some s ∧ s.animations.length = 0) ∨
  g.assimp_node = none

/-- The per-geometry body of `kuhl_update_model`
(kuhl-util.c:2947-3021): skip when the scene is NULL, has no
animations, or the node is NULL; otherwise, for a bone-free geometry,
recompute its draw-time matrix by the upward walk; for a bone-bearing
geometry, leave the matrix alone and recompute every bone slot by
locating the bone's scene node by name (fatal if absent), walking
upward, and post-multiplying the bone's offset matrix. -/
def kuhl_update_model_one (ops : QuatOps) (g : KuhlGeometry) (animationNum : Nat) (t : ℚ) :
    Except UpdateErr KuhlGeometry :=
  match g.assimp_scene with
  | none => .ok g
  | some scene =>
    if scene.animations.length = 0 then .ok g
    else
      match g.assimp_node with
      | none => .ok g
      | some nodeIdx =>
        let fuel := scene.nodes.length + 1
        match g.bones with
        | none =>
          match kuhl_node_matrix_walk ops scene fuel nodeIdx animationNum t mat4fIdentity with
          | none => .error .invalidNodeRef
          | some m => .ok { g with matrix := m }
        | some bs =>
          match (List.range bs.count).foldlM
              (fun (mats : List Mat4) b =>
                (let bone := bs.boneList.getD b ⟨"", mat4fIdentity, []⟩
                 match kuhl_assimp_find_node scene.nodes fuel bone.name scene.rootNode with
                 | none => Except.error UpdateErr.missingBoneNode
                 | some nidx =>
                   match kuhl_node_matrix_walk ops scene fuel nidx animationNum t
                       mat4fIdentity with
                   | none => Except.error UpdateErr.invalidNodeRef
                   | some m => Except.ok (mats.set b (mat4fMultMat4f m bone.offsetMatrix)) :
                   Except UpdateErr (List Mat4)))
              bs.matrices with
          | .error e => .error e
          | .ok mats' => .ok { g with bones := some { bs with matrices := mats' } }

/-- `kuhl_update_model` (kuhl-util.c:2945-3022): the loop over the
geometry list; a fatal condition anywhere terminates the process. -/
def kuhl_update_model (ops : QuatOps) : List KuhlGeometry → Nat → ℚ →
    Except UpdateErr (List KuhlGeometry)
  | [], _, _ => .ok []
  | g :: rest, animationNum, t =>
    match kuhl_update_model_one ops g animationNum t with
    | .error e => .error e
    | .ok g' =>
      match kuhl_update_model ops rest animationNum t with
      | .error e => .error e
      | .ok rest' => .ok (g' :: rest')

end KuhlUtil

namespace KuhlUtil

/-- C10: a geometry whose scene is NULL, whose scene has no animations,
or whose node is NULL is left completely unchanged by the hierarchy
evaluator — its draw-time matrix and its bone matrices keep the values
baked in at import time — for every animation index and time: the
per-geometry body returns it untouched, and a completed
`kuhl_update_model` pass leaves it untouched at its position in the
list. -/
theorem kuhl_update_model_preserves_skipped
    (ops : QuatOps) (gs : List KuhlGeometry) (animationNum : Nat) (t : ℚ) :
    (∀ g, updateSkipped g → kuhl_update_model_one ops g animationNum t = .ok g) ∧
    (∀ gs', kuhl_update_model ops gs animationNum t = .ok gs' →
      ∀ (i : Nat) (g : KuhlGeometry), gs[i]? = some g → updateSkipped g →
        gs'[i]? = some g) := by
  have hone : ∀ g, updateSkipped g → kuhl_update_model_one ops g animationNum t = .ok g := by
    intro g hg
    rcases hg with hs | ⟨s, hs, hanim⟩ | hn
    · simp [kuhl_update_model_one, hs]
    · simp [kuhl_update_model_one, hs, hanim]
    · simp only [kuhl_update_model_one, hn]
      cases hsc : g.assimp_scene with
      | none => rfl
      | some s => by_cases h0 : s.animations.length = 0 <;> simp [h0]
  refine ⟨hone, ?_⟩
  induction gs with
  | nil =>
    intro gs' hrun i g hget
    simp at hget
  | cons a rest ih =>
    intro gs' hrun i g hget hskip
    simp only [kuhl_update_model] at hrun
    split at hrun
    · exact absurd hrun (by simp)
    case _ a' heqa =>
      split at hrun
      · exact absurd hrun (by simp)
      case _ rest' heqrest =>
        simp only [Except.ok.injEq] at hrun
        subst hrun
        cases i with
        | zero =>
          simp only [List.getElem?_cons_zero, Option.some.injEq] at hget
          subst hget
          have := hone a hskip
          rw [this] at heqa
          simp only [Except.ok.injEq] at heqa
          subst heqa
          simp
        | succ j =>
          simp only [List.getElem?_cons_succ] at hget ⊢
          exact ih rest' heqrest j g hget hskip

/-- `exGeom` with a scene that has no animations. -/
def exGeomNoAnims : KuhlGeometry :=
  { exGeom with assimp_scene := some ⟨[], 0, []⟩, assimp_node := some 0 }

/-- `exGeom` with an animated scene but a NULL originating node. -/
def exGeomNodeNull : KuhlGeometry :=
  { exGeom with assimp_scene := some exSceneAnim, assimp_node := none }

/-- Witness for C10 at concrete inputs: a three-geometry list in which
the first has no scene, the second a zero-animation scene, and the
third no originating node; the pass succeeds and returns each of them
unchanged at its position. -/
theorem kuhl_update_model_preserves_skipped_witness :
    kuhl_update_model_one exQuatOps exGeom 0 1 = .ok exGeom ∧
    kuhl_update_model exQuatOps [exGeom, exGeomNoAnims, exGeomNodeNull] 0 1 =
      .ok [exGeom, exGeomNoAnims, exGeomNodeNull] ∧
    [exGeom, exGeomNoAnims, exGeomNodeNull][1]? = some exGeomNoAnims := by
  have h := kuhl_update_model_preserves_skipped exQuatOps
    [exGeom, exGeomNoAnims, exGeomNodeNull] 0 1
  have h0 : kuhl_update_model_one exQuatOps exGeom 0 1 = .ok exGeom :=
    h.1 exGeom (Or.inl rfl)
  have h1 : kuhl_update_model_one exQuatOps exGeomNoAnims 0 1 = .ok exGeomNoAnims :=
    h.1 exGeomNoAnims (Or.inr (Or.inl ⟨⟨[], 0, []⟩, rfl, rfl⟩))
  have h2 : kuhl_update_model_one exQuatOps exGeomNodeNull 0 1 = .ok exGeomNodeNull :=
    h.1 exGeomNodeNull (Or.inr (Or.inr rfl))
  have hrun : kuhl_update_model exQuatOps [exGeom, exGeomNoAnims, exGeomNodeNull] 0 1 =
      .ok [exGeom, exGeomNoAnims, exGeomNodeNull] := by
    simp [kuhl_update_model, h0, h1, h2]
  exact ⟨h0, hrun, h.2 [exGeom, exGeomNoAnims, exGeomNodeNull] hrun 1 exGeomNoAnims rfl
    (Or.inr (Or.inl ⟨⟨[], 0, []⟩, rfl, rfl⟩))⟩

end KuhlUtil
